import Mathlib

/-!
Shallow embedding of the service-registry and health-aware-routing core of
`src/main.py` (AI Fusion Core API gateway).  Pure Python functions become
Lean functions; the mutable `ServiceInfo` record is threaded explicitly;
timestamps (`datetime.utcnow()`) are abstracted as `Nat` values passed in;
the HTTP/gRPC transport is abstracted as a function from forward calls to
transport outcomes.
-/

namespace AtsGateway

/-- `ServiceStatus` enum of `src/main.py` lines 33-37. -/
inductive ServiceStatus where
  | healthy
  | unhealthy
  | disconnected
  | starting
deriving DecidableEq

/-- `ServiceInfo` dataclass of `src/main.py` lines 39-47.
`last_health_check` is the abstracted timestamp (`none` = never checked). -/
structure ServiceInfo where
  name : String
  host : String
  grpc_port : Nat
  http_port : Nat
  status : ServiceStatus
  last_health_check : Option Nat
  health_check_failures : Nat
deriving DecidableEq

/-- The service record built at registration time in
`initialize_service_connections` (`src/main.py` lines 145-151):
status `STARTING`, no health check yet, zero failures. -/
def mkStartingInfo (name host : String) (grpc_port http_port : Nat) : ServiceInfo :=
  ⟨name, host, grpc_port, http_port, ServiceStatus.starting, none, 0⟩

/-- The registry `service_registry : Dict[str, ServiceInfo]` (`src/main.py`
line 61), embedded as a lookup function. -/
def Registry : Type := String → Option ServiceInfo

/-- Registration of one service in `initialize_service_connections`
(`src/main.py` lines 144-152): a plain dict assignment
`service_registry[service_name] = service_info`, which overwrites any
existing entry; no duplicate check is performed. -/
def registerService (reg : Registry) (name host : String)
    (grpc_port http_port : Nat) : Registry :=
  fun n => if n = name then some (mkStartingInfo name host grpc_port http_port) else reg n

/-- `handle_service_health_failure` (`src/main.py` lines 237-247):
increment the failure counter, stamp the check time, and set status
`UNHEALTHY` when the new count reaches `max_failures`, else `DISCONNECTED`. -/
def handle_service_health_failure (info : ServiceInfo) (now : Nat)
    (max_failures : Nat) : ServiceInfo :=
  ⟨info.name, info.host, info.grpc_port, info.http_port,
   if info.health_check_failures + 1 ≥ max_failures then
     ServiceStatus.unhealthy
   else
     ServiceStatus.disconnected,
   some now, info.health_check_failures + 1⟩

/-- The success branch of a health check, as written inline both in
`health_check_services` (`src/main.py` lines 213-216) and in
`manual_health_check` (lines 691-694): status `HEALTHY`, timestamp updated,
failure counter reset to zero. -/
def record_health_success (info : ServiceInfo) (now : Nat) : ServiceInfo :=
  ⟨info.name, info.host, info.grpc_port, info.http_port,
   ServiceStatus.healthy, some now, 0⟩

/-- One health-check outcome fed into the registry, with its timestamp.
Both callers of the failure path use the local constant `max_failures = 3`
(`src/main.py` lines 197 and 678). -/
inductive HealthEvent where
  | success (t : Nat)
  | failure (t : Nat)

/-- Apply one health-check outcome to a service record, exactly as the two
call sites in `src/main.py` do (threshold 3). -/
def applyEvent (info : ServiceInfo) : HealthEvent → ServiceInfo
  | HealthEvent.success t => record_health_success info t
  | HealthEvent.failure t => handle_service_health_failure info t 3

/-- Apply a sequence of health-check outcomes in order. -/
def applyEvents (info : ServiceInfo) (es : List HealthEvent) : ServiceInfo :=
  es.foldl applyEvent info

/-- The registry invariant stated in §3 of the spec: the failure counter is
zero at status `HEALTHY` and at least 3 at status `UNHEALTHY`. -/
def registryInvariant (info : ServiceInfo) : Prop :=
  (info.status = ServiceStatus.healthy → info.health_check_failures = 0) ∧
  (info.status = ServiceStatus.unhealthy → 3 ≤ info.health_check_failures)

instance (info : ServiceInfo) : Decidable (registryInvariant info) := by
  unfold registryInvariant; infer_instance

/-! ### Path rewriting

Python's `str.replace(old, new)` with `new = ""` removes every
non-overlapping occurrence of `old`, scanning left to right.  All path
rewriting in the routing handlers uses exactly that
(`path.replace("/api/v1/cv/", "")...`), so we embed it directly.  The fuel
argument (instantiated with the string length) keeps the recursion
structural so the function evaluates by kernel reduction. -/

/-- Remove every non-overlapping occurrence of `pat` from `s`, scanning
left to right; `fuel` bounds the recursion (the string length suffices). -/
def stripAllFuel (pat : List Char) : Nat → List Char → List Char
  | _, [] => []
  | 0, s => s
  | n + 1, c :: cs =>
      if pat.isPrefixOf (c :: cs) && !pat.isEmpty then
        stripAllFuel pat n ((c :: cs).drop pat.length)
      else
        c :: stripAllFuel pat n cs

/-- Whether `pat` occurs as a contiguous block somewhere in `s`. -/
def hasOccur (pat : List Char) : List Char → Bool
  | [] => pat.isEmpty
  | c :: cs => pat.isPrefixOf (c :: cs) || hasOccur pat cs

/-- Embedding of Python `s.replace(pat, "")`. -/
def stripAll (pat s : String) : String :=
  ⟨stripAllFuel pat.data s.data.length s.data⟩

/-! ### Routing -/

/-- A parsed JSON value, the shape relayed by `JSONResponse`
(`response.json()` results and the gateway's own `{"detail": ...}` bodies). -/
inductive Json where
  | str (s : String)
  | num (n : Int)
  | obj (fields : List (String × Json))

/-- The gateway's error bodies `{"detail": <msg>}`. -/
def detailJson (msg : String) : Json :=
  Json.obj [("detail", Json.str msg)]

/-- One HTTP request issued through a pooled client of `http_clients`
(`src/main.py` line 60): target service, method, target path, body. -/
structure ForwardCall where
  service : String
  method : String
  target : String
  body : String
deriving DecidableEq

/-- Outcome of one forwarded HTTP call: a backend response, an
`httpx.TimeoutException`, or any other transport exception. -/
inductive TransportOutcome where
  | success (status_code : Nat) (content : Option Json)
      (headers : List (String × String))
  | timeout
  | error (msg : String)

/-- The connection pool abstracted as the transport behaviour of the
pooled clients: what each issued call comes back with. -/
def Pool : Type := ForwardCall → TransportOutcome

/-- What the gateway answers the inbound caller with: the arguments of the
`JSONResponse(...)` constructions in `src/main.py`. -/
structure GatewayResponse where
  status_code : Nat
  content : Json
  headers : List (String × String)

/-- Relaying a backend response (`src/main.py` e.g. lines 520-524):
its status code, its parsed JSON body — `{}` when the body is empty
(`response.json() if response.content else {}`) — and its headers. -/
def relayBackend (status_code : Nat) (content : Option Json)
    (headers : List (String × String)) : GatewayResponse :=
  ⟨status_code, content.getD (Json.obj []), headers⟩

/-- Response mapping of `route_to_ai_kernel` (`src/main.py` lines 452-468):
a backend response is relayed; `httpx.TimeoutException` maps to 504
`{"detail": "AI Kernel service timeout"}`; any other exception to 500
`{"detail": "AI Kernel service error"}`. -/
def aiKernelOutcomeResp : TransportOutcome → GatewayResponse
  | TransportOutcome.success sc content headers => relayBackend sc content headers
  | TransportOutcome.timeout => ⟨504, detailJson "AI Kernel service timeout", []⟩
  | TransportOutcome.error _ => ⟨500, detailJson "AI Kernel service error", []⟩

/-- `route_to_ai_kernel` (`src/main.py` lines 442-468): strips both ai
prefixes from the path, then always issues a POST to
`/api/v2/ai/<stripped>` with the original body, whatever the inbound
method was.  The second component records the calls issued through the
pool. -/
def route_to_ai_kernel (pool : Pool) (_method path body : String) :
    GatewayResponse × List ForwardCall :=
  let p := stripAll "/api/v2/ai/" (stripAll "/api/v1/ai/" path)
  let call : ForwardCall := ⟨"ai-kernel", "POST", "/api/v2/ai/" ++ p, body⟩
  (aiKernelOutcomeResp (pool call), [call])

/-- Response mapping of `route_to_identity_service` (`src/main.py` lines
495-506): a backend response is relayed; every exception — timeouts
included, there is no dedicated timeout branch — maps to 500
`{"detail": "Identity service error"}`. -/
def identityOutcomeResp : TransportOutcome → GatewayResponse
  | TransportOutcome.success sc content headers => relayBackend sc content headers
  | _ => ⟨500, detailJson "Identity service error", []⟩

/-- `route_to_identity_service` (`src/main.py` lines 470-506): strips the
auth and users prefixes; POSTs with `login`/`register` in an auth path go
to fixed login/register endpoints, other auth paths keep their method to
`/api/v1/auth/<stripped>`, non-auth (users) paths to
`/api/v1/users/<stripped>`; every exception (timeouts included) maps
to 500. -/
def route_to_identity_service (pool : Pool) (method path body : String) :
    GatewayResponse × List ForwardCall :=
  let p := stripAll "/api/v1/users/" (stripAll "/api/v1/auth/" path)
  let call : ForwardCall :=
    if "/api/v1/auth/".data.isPrefixOf path.data then
      if method = "POST" && hasOccur "login".data path.data then
        ⟨"identity", "POST", "/api/v1/auth/login", body⟩
      else if method = "POST" && hasOccur "register".data path.data then
        ⟨"identity", "POST", "/api/v1/auth/register", body⟩
      else
        ⟨"identity", method, "/api/v1/auth/" ++ p, body⟩
    else
      ⟨"identity", method, "/api/v1/users/" ++ p, body⟩
  (identityOutcomeResp (pool call), [call])

/-- Response mapping of `route_to_cv_engine` (`src/main.py` lines 520-531):
a backend response is relayed; every exception — timeouts included, there
is no dedicated timeout branch — maps to 500
`{"detail": "CV Engine service error"}`. -/
def cvEngineOutcomeResp : TransportOutcome → GatewayResponse
  | TransportOutcome.success sc content headers => relayBackend sc content headers
  | _ => ⟨500, detailJson "CV Engine service error", []⟩

/-- `route_to_cv_engine` (`src/main.py` lines 508-531): strips both cv
prefixes, forwards with the original method to `/api/v1/cv/<stripped>`
with the original body. -/
def route_to_cv_engine (pool : Pool) (method path body : String) :
    GatewayResponse × List ForwardCall :=
  let p := stripAll "/api/v2/cv/" (stripAll "/api/v1/cv/" path)
  let call : ForwardCall := ⟨"cv-engine", method, "/api/v1/cv/" ++ p, body⟩
  (cvEngineOutcomeResp (pool call), [call])

/-- Response mapping of `route_to_analytics_service` (`src/main.py` lines
545-556): a backend response is relayed; every exception — timeouts
included — maps to 500 `{"detail": "Analytics service error"}`. -/
def analyticsOutcomeResp : TransportOutcome → GatewayResponse
  | TransportOutcome.success sc content headers => relayBackend sc content headers
  | _ => ⟨500, detailJson "Analytics service error", []⟩

/-- `route_to_analytics_service` (`src/main.py` lines 533-556): strips both
analytics prefixes, forwards with the original method to
`/api/v1/analytics/<stripped>` with the original body. -/
def route_to_analytics_service (pool : Pool) (method path body : String) :
    GatewayResponse × List ForwardCall :=
  let p := stripAll "/api/v2/analytics/" (stripAll "/api/v1/analytics/" path)
  let call : ForwardCall := ⟨"analytics", method, "/api/v1/analytics/" ++ p, body⟩
  (analyticsOutcomeResp (pool call), [call])

/-- Response mapping of `route_to_generic_service` (`src/main.py` lines
576-587): a backend response is relayed; every exception maps to 500
`{"detail": "<name> service error"}`. -/
def genericOutcomeResp (name : String) : TransportOutcome → GatewayResponse
  | TransportOutcome.success sc content headers => relayBackend sc content headers
  | _ => ⟨500, detailJson (name ++ " service error"), []⟩

/-- `route_to_generic_service` (`src/main.py` lines 558-587): strips the
service's own versioned prefix when present (membership is tested without
the trailing slash, the replacement includes it), forwards to
`/api/v1/<stripped>`; every exception maps to 500. -/
def route_to_generic_service (pool : Pool) (name method path body : String) :
    GatewayResponse × List ForwardCall :=
  let p :=
    if hasOccur ("/api/v1/" ++ name).data path.data then
      stripAll ("/api/v1/" ++ name ++ "/") path
    else if hasOccur ("/api/v2/" ++ name).data path.data then
      stripAll ("/api/v2/" ++ name ++ "/") path
    else
      path
  let call : ForwardCall := ⟨name, method, "/api/v1/" ++ p, body⟩
  (genericOutcomeResp name (pool call), [call])

/-- `route_to_service` (`src/main.py` lines 396-440): 404 when the name is
not registered, 503 when the registered record is not `HEALTHY`, otherwise
dispatch to the per-service handler.  In both refusal cases no call is
issued through the pool (empty call list). -/
def route_to_service (reg : Registry) (pool : Pool)
    (method path body name : String) : GatewayResponse × List ForwardCall :=
  match reg name with
  | none =>
      (⟨404, detailJson ("Service " ++ name ++ " not found"), []⟩, [])
  | some info =>
      if info.status ≠ ServiceStatus.healthy then
        (⟨503, detailJson ("Service " ++ name ++ " is not available"), []⟩, [])
      else if name = "ai-kernel" then
        route_to_ai_kernel pool method path body
      else if name = "identity" then
        route_to_identity_service pool method path body
      else if name = "cv-engine" then
        route_to_cv_engine pool method path body
      else if name = "analytics" then
        route_to_analytics_service pool method path body
      else
        route_to_generic_service pool name method path body

/-- `service_routing_middleware` (`src/main.py` lines 373-394): first
matching path rule picks the target service; unmatched paths are handled
locally (`none`). -/
def service_routing_middleware (reg : Registry) (pool : Pool)
    (method path body : String) : Option (GatewayResponse × List ForwardCall) :=
  if "/api/v1/ai/".data.isPrefixOf path.data
      || "/api/v2/ai/".data.isPrefixOf path.data then
    some (route_to_service reg pool method path body "ai-kernel")
  else if "/api/v1/auth/".data.isPrefixOf path.data
      || "/api/v1/users/".data.isPrefixOf path.data then
    some (route_to_service reg pool method path body "identity")
  else if "/api/v1/cv/".data.isPrefixOf path.data
      || "/api/v2/cv/".data.isPrefixOf path.data then
    some (route_to_service reg pool method path body "cv-engine")
  else if "/api/v1/analytics/".data.isPrefixOf path.data
      || "/api/v2/analytics/".data.isPrefixOf path.data then
    some (route_to_service reg pool method path body "analytics")
  else
    none

/-! ### Helper lemmas -/

lemma applyEvent_invariant (info : ServiceInfo) (e : HealthEvent) :
    registryInvariant (applyEvent info e) := by
  cases e with
  | success t =>
      exact ⟨fun _ => rfl, fun h => by simp [applyEvent, record_health_success] at h⟩
  | failure t =>
      constructor
      · intro h
        simp only [applyEvent, handle_service_health_failure] at h
        split at h <;> simp_all
      · intro h
        simp only [applyEvent, handle_service_health_failure] at h ⊢
        split at h <;> simp_all

lemma applyEvents_invariant_of (info : ServiceInfo) (es : List HealthEvent)
    (h : registryInvariant info) : registryInvariant (applyEvents info es) := by
  induction es generalizing info with
  | nil => exact h
  | cons e rest ih =>
      simpa [applyEvents, List.foldl_cons] using
        ih (applyEvent info e) (applyEvent_invariant info e)

lemma isPrefixOf_append_self (l r : List Char) : l.isPrefixOf (l ++ r) = true := by
  induction l with
  | nil => simp [List.isPrefixOf]
  | cons a as ih => simp [List.isPrefixOf, ih]

lemma drop_length_append (l r : List Char) : (l ++ r).drop l.length = r := by
  induction l with
  | nil => rfl
  | cons a as ih => simp [ih]

lemma stripAllFuel_no_occur (pat : List Char) (s : List Char)
    (h : hasOccur pat s = false) (n : Nat) : stripAllFuel pat n s = s := by
  induction s generalizing n with
  | nil => cases n <;> rfl
  | cons c cs ih =>
      simp only [hasOccur, Bool.or_eq_false_iff] at h
      cases n with
      | zero => rfl
      | succ m => simp [stripAllFuel, h.1, ih h.2]

lemma stripAllFuel_head (p : Char) (ps rest : List Char) (n : Nat) :
    stripAllFuel (p :: ps) (n + 1) ((p :: ps) ++ rest) =
      stripAllFuel (p :: ps) n rest := by
  have hpre : (p :: ps).isPrefixOf (p :: (ps ++ rest)) = true := by
    simp [List.isPrefixOf, isPrefixOf_append_self]
  have hdrop : List.drop (p :: ps).length (p :: (ps ++ rest)) = rest := by
    simp [drop_length_append]
  simp [stripAllFuel, hpre, hdrop]

lemma stripAll_no_occur (pat s : String)
    (h : hasOccur pat.data s.data = false) : stripAll pat s = s := by
  unfold stripAll
  rw [stripAllFuel_no_occur pat.data s.data h]

lemma stripAll_head (pat rest : String) (hne : pat.data ≠ [])
    (h : hasOccur pat.data rest.data = false) :
    stripAll pat (pat ++ rest) = rest := by
  obtain ⟨p, ps, hp⟩ := List.exists_cons_of_ne_nil hne
  unfold stripAll
  rw [String.data_append, hp]
  have hlen : ((p :: ps) ++ rest.data).length = (ps.length + rest.data.length) + 1 := by
    simp [List.length_append]
  have hocc : hasOccur (p :: ps) rest.data = false := by rw [← hp]; exact h
  rw [hlen, stripAllFuel_head,
    stripAllFuel_no_occur (p :: ps) rest.data hocc (ps.length + rest.data.length)]

/-! ### Claim theorems -/

/-- C1: every `handle_service_health_failure` at threshold 3 increments
`health_check_failures` by one, updates `last_health_check` to the given
timestamp, and sets status `unhealthy` when the new count reaches 3, else
`disconnected`; hence from a freshly registered record, after one or two
consecutive failures the status is `disconnected` and after three it is
`unhealthy`. -/
theorem recordFailure_increments_and_thresholds :
    (∀ (info : ServiceInfo) (t : Nat),
      (handle_service_health_failure info t 3).health_check_failures =
        info.health_check_failures + 1 ∧
      (handle_service_health_failure info t 3).last_health_check = some t ∧
      (handle_service_health_failure info t 3).status =
        (if info.health_check_failures + 1 ≥ 3 then ServiceStatus.unhealthy
         else ServiceStatus.disconnected)) ∧
    (∀ (name host : String) (gp hp t1 t2 t3 : Nat),
      (applyEvents (mkStartingInfo name host gp hp)
          [HealthEvent.failure t1]).status = ServiceStatus.disconnected ∧
      (applyEvents (mkStartingInfo name host gp hp)
          [HealthEvent.failure t1, HealthEvent.failure t2]).status =
        ServiceStatus.disconnected ∧
      (applyEvents (mkStartingInfo name host gp hp)
          [HealthEvent.failure t1, HealthEvent.failure t2,
           HealthEvent.failure t3]).status = ServiceStatus.unhealthy ∧
      (applyEvents (mkStartingInfo name host gp hp)
          [HealthEvent.failure t1, HealthEvent.failure t2,
           HealthEvent.failure t3]).health_check_failures = 3) :=
  ⟨fun _ _ => ⟨rfl, rfl, rfl⟩, fun _ _ _ _ _ _ _ => ⟨rfl, rfl, rfl, rfl⟩⟩

/-- C2: starting from a freshly registered record, any sequence of
success/failure recordings preserves the registry invariant:
`health_check_failures = 0` whenever status is `healthy`, and
`health_check_failures ≥ 3` whenever status is `unhealthy`. -/
theorem registry_invariant_holds (name host : String) (gp hp : Nat)
    (es : List HealthEvent) :
    registryInvariant (applyEvents (mkStartingInfo name host gp hp) es) := by
  refine applyEvents_invariant_of _ es ⟨?_, ?_⟩ <;>
    intro h <;> simp [mkStartingInfo] at h

/-- C2 witness: the invariant evaluated after a concrete mixed history of
recordings. -/
theorem registry_invariant_holds_witness :
    registryInvariant (applyEvents (mkStartingInfo "cv-engine" "localhost" 50053 8003)
      [HealthEvent.failure 1, HealthEvent.failure 2, HealthEvent.success 3,
       HealthEvent.failure 4, HealthEvent.failure 5, HealthEvent.failure 6]) :=
  registry_invariant_holds "cv-engine" "localhost" 50053 8003
    [HealthEvent.failure 1, HealthEvent.failure 2, HealthEvent.success 3,
     HealthEvent.failure 4, HealthEvent.failure 5, HealthEvent.failure 6]

/-- C4: a single success recording, from any prior record state (and, in
particular, after any history of health events), sets status `healthy`,
resets `health_check_failures` to 0, and sets `last_health_check` to the
given timestamp. -/
theorem recordSuccess_immediate_recovery :
    (∀ (info : ServiceInfo) (t : Nat),
      (record_health_success info t).status = ServiceStatus.healthy ∧
      (record_health_success info t).health_check_failures = 0 ∧
      (record_health_success info t).last_health_check = some t) ∧
    (∀ (name host : String) (gp hp : Nat) (es : List HealthEvent) (t : Nat),
      (applyEvents (mkStartingInfo name host gp hp)
          (es ++ [HealthEvent.success t])).status = ServiceStatus.healthy ∧
      (applyEvents (mkStartingInfo name host gp hp)
          (es ++ [HealthEvent.success t])).health_check_failures = 0 ∧
      (applyEvents (mkStartingInfo name host gp hp)
          (es ++ [HealthEvent.success t])).last_health_check = some t) := by
  refine ⟨fun _ _ => ⟨rfl, rfl, rfl⟩, fun name host gp hp es t => ?_⟩
  refine ⟨?_, ?_, ?_⟩ <;>
    simp [applyEvents, List.foldl_append, applyEvent, record_health_success]

/-- C3: routing to a registered service whose status is anything but
`healthy` answers 503 with body `{"detail": "Service <name> is not
available"}` and issues no call through the connection pool. -/
theorem route_unhealthy_503 (reg : Registry) (pool : Pool)
    (method path body name : String) (info : ServiceInfo)
    (hreg : reg name = some info)
    (hst : info.status ≠ ServiceStatus.healthy) :
    route_to_service reg pool method path body name =
      (⟨503, detailJson ("Service " ++ name ++ " is not available"), []⟩, []) := by
  unfold route_to_service
  rw [hreg]
  simp [hst]

/-- C3 witness: an `unhealthy` analytics record is answered 503 with no
pool call, at a concrete registry and request. -/
theorem route_unhealthy_503_witness :
    route_to_service
        (fun n => if n = "analytics" then
            some ⟨"analytics", "localhost", 50055, 8005,
              ServiceStatus.unhealthy, some 5, 3⟩
          else none)
        (fun _ => TransportOutcome.timeout)
        "GET" "/api/v1/analytics/report" "" "analytics" =
      (⟨503, detailJson "Service analytics is not available", []⟩, []) :=
  route_unhealthy_503 _ _ "GET" "/api/v1/analytics/report" "" "analytics"
    ⟨"analytics", "localhost", 50055, 8005, ServiceStatus.unhealthy, some 5, 3⟩
    rfl (by decide)

/-- C5 counterexample: a transport timeout while forwarding to cv-engine is
answered 500 `{"detail": "CV Engine service error"}`, not 504 with a
`"<Service> service timeout"` detail as the claim states — the cv-engine
handler has no timeout branch. -/
theorem cv_timeout_maps_to_500_not_504 :
    (route_to_cv_engine (fun _ => TransportOutcome.timeout)
        "GET" "/api/v1/cv/templates" "").1 =
      ⟨500, detailJson "CV Engine service error", []⟩ ∧
    (route_to_cv_engine (fun _ => TransportOutcome.timeout)
        "GET" "/api/v1/cv/templates" "").1.status_code ≠ 504 :=
  ⟨rfl, by decide⟩

/-- C5 amended: transport failures are mapped per handler, not uniformly.
Only the ai-kernel handler maps a timeout to 504
`{"detail": "AI Kernel service timeout"}` and other errors to 500
`{"detail": "AI Kernel service error"}`; the identity, cv-engine and
analytics handlers map every transport failure, timeouts included, to 500
`{"detail": "<Service> service error"}`. -/
theorem transport_error_mapping_per_handler (m p b em : String) :
    (route_to_ai_kernel (fun _ => TransportOutcome.timeout) m p b).1 =
      ⟨504, detailJson "AI Kernel service timeout", []⟩ ∧
    (route_to_ai_kernel (fun _ => TransportOutcome.error em) m p b).1 =
      ⟨500, detailJson "AI Kernel service error", []⟩ ∧
    (route_to_cv_engine (fun _ => TransportOutcome.timeout) m p b).1 =
      ⟨500, detailJson "CV Engine service error", []⟩ ∧
    (route_to_cv_engine (fun _ => TransportOutcome.error em) m p b).1 =
      ⟨500, detailJson "CV Engine service error", []⟩ ∧
    (route_to_identity_service (fun _ => TransportOutcome.timeout) m p b).1 =
      ⟨500, detailJson "Identity service error", []⟩ ∧
    (route_to_identity_service (fun _ => TransportOutcome.error em) m p b).1 =
      ⟨500, detailJson "Identity service error", []⟩ ∧
    (route_to_analytics_service (fun _ => TransportOutcome.timeout) m p b).1 =
      ⟨500, detailJson "Analytics service error", []⟩ ∧
    (route_to_analytics_service (fun _ => TransportOutcome.error em) m p b).1 =
      ⟨500, detailJson "Analytics service error", []⟩ :=
  ⟨rfl, rfl, rfl, rfl, rfl, rfl, rfl, rfl⟩

/-- C6 counterexample: registering a name already present in the registry
does not fail — there is no duplicate check — and the existing record is
replaced by the new one. -/
theorem register_overwrites_existing :
    (registerService (fun _ => none) "cv-engine" "hostA" 50053 8003)
        "cv-engine" = some (mkStartingInfo "cv-engine" "hostA" 50053 8003) ∧
    (registerService
        (registerService (fun _ => none) "cv-engine" "hostA" 50053 8003)
        "cv-engine" "hostB" 1 2) "cv-engine" =
      some (mkStartingInfo "cv-engine" "hostB" 1 2) ∧
    mkStartingInfo "cv-engine" "hostB" 1 2 ≠
      mkStartingInfo "cv-engine" "hostA" 50053 8003 :=
  ⟨rfl, rfl, by decide⟩

/-- C6 amended: `registerService` inserts a record with status `starting`
under the given name, leaves every other name unchanged, and when the name
already exists the old record is silently overwritten — no
DuplicateServiceError is raised. -/
theorem register_inserts_starting (reg : Registry) (name host : String)
    (gp hp : Nat) :
    (registerService reg name host gp hp) name =
      some (mkStartingInfo name host gp hp) ∧
    ∀ m, m ≠ name → (registerService reg name host gp hp) m = reg m := by
  constructor
  · simp [registerService]
  · intro m hm
    simp [registerService, hm]

/-- C6 amended witness: concrete registration, checked at the inserted name
and at an absent one. -/
theorem register_inserts_starting_witness :
    (registerService (fun _ => none) "cv-engine" "h" 1 2) "cv-engine" =
      some (mkStartingInfo "cv-engine" "h" 1 2) ∧
    (registerService (fun _ => none) "cv-engine" "h" 1 2) "ai-kernel" = none :=
  ⟨(register_inserts_starting (fun _ => none) "cv-engine" "h" 1 2).1,
   (register_inserts_starting (fun _ => none) "cv-engine" "h" 1 2).2
     "ai-kernel" (by decide)⟩

/-- C8: routing to a service name absent from the registry answers 404 with
body `{"detail": "Service <name> not found"}` and issues no call through
the connection pool. -/
theorem route_unknown_404 (reg : Registry) (pool : Pool)
    (method path body name : String) (hreg : reg name = none) :
    route_to_service reg pool method path body name =
      (⟨404, detailJson ("Service " ++ name ++ " not found"), []⟩, []) := by
  unfold route_to_service
  rw [hreg]

/-- C8 witness: an empty registry answers 404 with no pool call at a
concrete request. -/
theorem route_unknown_404_witness :
    route_to_service (fun _ => none) (fun _ => TransportOutcome.timeout)
        "GET" "/api/v1/cv/templates" "" "cv-engine" =
      (⟨404, detailJson "Service cv-engine not found", []⟩, []) :=
  route_unknown_404 (fun _ => none) (fun _ => TransportOutcome.timeout)
    "GET" "/api/v1/cv/templates" "" "cv-engine" rfl

/-- C7: a request matched to ai-kernel is forwarded as a POST to
`/api/v2/ai/<rest>` with the matched prefix stripped and the original body
unchanged, whatever the inbound HTTP method was; this holds for paths under
`/api/v1/ai/` and, when the rewritten ai prefixes do not otherwise occur in
the path, for paths under `/api/v2/ai/` as well. -/
theorem ai_kernel_always_posts (pool : Pool) (method rest body : String)
    (h1 : hasOccur "/api/v1/ai/".data rest.data = false)
    (h2 : hasOccur "/api/v2/ai/".data rest.data = false) :
    (route_to_ai_kernel pool method ("/api/v1/ai/" ++ rest) body).2 =
      [⟨"ai-kernel", "POST", "/api/v2/ai/" ++ rest, body⟩] ∧
    (hasOccur "/api/v1/ai/".data ("/api/v2/ai/" ++ rest).data = false →
      (route_to_ai_kernel pool method ("/api/v2/ai/" ++ rest) body).2 =
        [⟨"ai-kernel", "POST", "/api/v2/ai/" ++ rest, body⟩]) := by
  constructor
  · show [(⟨"ai-kernel", "POST",
      "/api/v2/ai/" ++
        stripAll "/api/v2/ai/" (stripAll "/api/v1/ai/" ("/api/v1/ai/" ++ rest)),
      body⟩ : ForwardCall)] = _
    rw [stripAll_head "/api/v1/ai/" rest (by decide) h1,
      stripAll_no_occur "/api/v2/ai/" rest h2]
  · intro h3
    show [(⟨"ai-kernel", "POST",
      "/api/v2/ai/" ++
        stripAll "/api/v2/ai/" (stripAll "/api/v1/ai/" ("/api/v2/ai/" ++ rest)),
      body⟩ : ForwardCall)] = _
    rw [stripAll_no_occur "/api/v1/ai/" ("/api/v2/ai/" ++ rest) h3,
      stripAll_head "/api/v2/ai/" rest (by decide) h2]

/-- C7 witness: a concrete GET under `/api/v1/ai/` is forwarded as a POST
with the prefix stripped and the body intact. -/
theorem ai_kernel_always_posts_witness :
    (route_to_ai_kernel (fun _ => TransportOutcome.timeout) "GET"
        ("/api/v1/ai/" ++ "chat") "hello").2 =
      [⟨"ai-kernel", "POST", "/api/v2/ai/" ++ "chat", "hello"⟩] :=
  (ai_kernel_always_posts (fun _ => TransportOutcome.timeout) "GET" "chat"
    "hello" (by decide) (by decide)).1

/-- C9: with cv-engine registered `healthy`, a
`GET /api/v1/cv/templates` is matched by the routing middleware, forwarded
as `GET /api/v1/cv/templates` through the cv-engine client with the
original body, and the backend's status code, parsed JSON body (`{}` when
the body is empty) and headers are relayed back. -/
theorem cv_route_end_to_end (sc : Nat) (content : Option Json)
    (headers : List (String × String)) (body : String) :
    service_routing_middleware
        (fun n => if n = "cv-engine" then
            some ⟨"cv-engine", "localhost", 50053, 8003,
              ServiceStatus.healthy, some 0, 0⟩
          else none)
        (fun _ => TransportOutcome.success sc content headers)
        "GET" "/api/v1/cv/templates" body =
      some (⟨sc, content.getD (Json.obj []), headers⟩,
        [⟨"cv-engine", "GET", "/api/v1/cv/templates", body⟩]) := rfl

/-- C10: path rewriting removes every occurrence of the matched prefix, not
only the leading one: a doubled prefix in the path collapses in the
forwarded target, in the cv-engine, ai-kernel, identity and analytics
handlers alike. -/
theorem replace_strips_every_occurrence :
    (route_to_cv_engine (fun _ => TransportOutcome.timeout) "GET"
        "/api/v1/cv/x/api/v1/cv/y" "").2 =
      [⟨"cv-engine", "GET", "/api/v1/cv/xy", ""⟩] ∧
    (route_to_ai_kernel (fun _ => TransportOutcome.timeout) "GET"
        "/api/v1/ai/x/api/v1/ai/y" "").2 =
      [⟨"ai-kernel", "POST", "/api/v2/ai/xy", ""⟩] ∧
    (route_to_identity_service (fun _ => TransportOutcome.timeout) "GET"
        "/api/v1/auth/x/api/v1/auth/y" "").2 =
      [⟨"identity", "GET", "/api/v1/auth/xy", ""⟩] ∧
    (route_to_analytics_service (fun _ => TransportOutcome.timeout) "GET"
        "/api/v1/analytics/x/api/v1/analytics/y" "").2 =
      [⟨"analytics", "GET", "/api/v1/analytics/xy", ""⟩] :=
  ⟨rfl, rfl, rfl, rfl⟩

end AtsGateway
